import Mathlib

/-!
Shallow embedding of `local_pro_mode.py` (class `LocalProMode`).

The backend ("completion service") is modelled as an environment `Env` that
fixes, for every dispatch unit `i` and attempt number `a`, the outcome of the
backend call made on that attempt (`.ok text` for a response, `.error e` for a
raised exception), and fixes the outcome of the single synthesis call.  The
`as_completed` iteration order of the thread pool is an explicit parameter
`order : List Nat`; theorems quantify over every permutation of `0..n-1`.
`run` additionally records the list of requests issued during the candidate
phase and during the synthesis phase, so that call counts and request
parameters (temperature, message bodies) can be stated.
-/

namespace LocalProMode

/-- A chat message: `{"role": ..., "content": ...}` in the Python source. -/
structure Message where
  role : String
  content : String
deriving DecidableEq, Repr

/-- `MAX_COMPLETION_TOKENS = 30000` (module-level constant). -/
def MAX_COMPLETION_TOKENS : Nat := 30000

/-- The parameters of one `client.chat.completions.create(...)` call. -/
structure Request where
  model : String
  messages : List Message
  temperature : ℚ
  maxTokens : Nat
  topP : ℚ
  stream : Bool
deriving DecidableEq, Repr

/-- How one execution of `_one_completion` terminates: a `return` of response
text, a `raise`, or the trailing `return ""` after the loop. -/
inductive CompResult where
  | returned (s : String)
  | raised (e : String)
  | fellThrough
deriving DecidableEq, Repr

/-- Observable behaviour of one `_one_completion` execution: the attempt
indices on which a backend call was issued, the `time.sleep` delays performed
(in seconds), and how it terminated. -/
structure CompTrace where
  calls : List Nat
  sleeps : List ℚ
  result : CompResult
deriving DecidableEq, Repr

/-- The `for attempt in range(3)` loop body of `_one_completion`.  `oracle a`
is the backend outcome of the call made on attempt `a`.  The remaining attempt
indices are the list argument; `delay` mirrors the mutable `delay` variable
(`0.5` initially, doubled after each sleep).  Falling off the loop reaches the
trailing `return ""`. -/
def oneCompletionLoop (oracle : Nat → Except String String) :
    List Nat → ℚ → CompTrace
  | [], _ => ⟨[], [], .fellThrough⟩
  | a :: rest, delay =>
    match oracle a with
    | .ok text => ⟨[a], [], .returned text⟩
    | .error e =>
      if a = 2 then ⟨[a], [], .raised e⟩
      else
        let t := oneCompletionLoop oracle rest (delay * 2)
        ⟨a :: t.calls, delay :: t.sleeps, t.result⟩

/-- `_one_completion(prompt, temperature)`: retry loop over attempts `0,1,2`
with initial delay `0.5`. -/
def oneCompletion (oracle : Nat → Except String String) : CompTrace :=
  oneCompletionLoop oracle (List.range 3) (1 / 2)

/-- What `fut.result()` contributes to `candidates[i]` in `run`: the returned
text on normal return, `""` when the unit raised (the `except` branch in the
`as_completed` loop) and `""` for the trailing `return ""`. -/
def unitText (t : CompTrace) : String :=
  match t.result with
  | .returned s => s
  | .raised _ => ""
  | .fellThrough => ""

/-- Python whitespace for `str.strip()`: space, tab, CR, LF, vertical tab,
form feed. -/
def pyIsSpace (c : Char) : Bool :=
  c.isWhitespace || c = '\x0b' || c = '\x0c'

/-- Python `s.strip()`: remove leading and trailing whitespace. -/
def pyStrip (s : String) : String :=
  String.mk (((s.data.dropWhile pyIsSpace).reverse.dropWhile pyIsSpace).reverse)

/-- The filter `if c and c.strip()` of line 120: a candidate is kept when it
is non-empty and does not strip to the empty string. -/
def keepCandidate (c : String) : Bool :=
  !c.isEmpty && !(pyStrip c).isEmpty

/-- One numbered block `f"<cand {i+1}>\n{txt}\n</cand {i+1}>"` of the
synthesis prompt (`i` is the 0-based position in the filtered list). -/
def candTag (i : Nat) (txt : String) : String :=
  "<cand " ++ toString (i + 1) ++ ">\n" ++ txt ++ "\n</cand " ++
    toString (i + 1) ++ ">"

/-- The fixed system instruction of `_build_synthesis_messages`. -/
def synthSystemPrompt : String :=
  "You are an expert editor. Synthesize ONE best answer from the candidate " ++
  "answers provided, merging strengths, correcting errors, and removing repetition. " ++
  "Do not mention the candidates or the synthesis process. Be decisive and clear."

/-- `_build_synthesis_messages(candidates)`. -/
def buildSynthesisMessages (candidates : List String) : List Message :=
  let numbered := String.intercalate "\n\n"
    (candidates.enum.map fun p => candTag p.1 p.2)
  let user :=
    "You are given " ++ toString candidates.length ++
    " candidate answers delimited by <cand i> tags.\n\n" ++ numbered ++
    "\n\nReturn the single best final answer."
  [⟨"system", synthSystemPrompt⟩, ⟨"user", user⟩]

/-- The request issued by `_one_completion` for candidate generation:
user-role prompt, temperature `0.9` (as passed from `run`), `top_p=1`,
`stream=False`. -/
def candidateRequest (model prompt : String) : Request :=
  ⟨model, [⟨"user", prompt⟩], 9 / 10, MAX_COMPLETION_TOKENS, 1, false⟩

/-- The synthesis request issued in `run`: synthesis messages, temperature
`0.2`, `top_p=1`, `stream=False`. -/
def synthesisRequest (model : String) (filtered : List String) : Request :=
  ⟨model, buildSynthesisMessages filtered, 1 / 5, MAX_COMPLETION_TOKENS, 1, false⟩

/-- The completion service: a fixed outcome for each backend call.
`unitResp i a` is the outcome of the call made by dispatch unit `i` on its
attempt `a`; `synthResp` is the outcome of the synthesis call. -/
structure Env where
  unitResp : Nat → Nat → Except String String
  synthResp : Except String String

/-- The dict `{"final": ..., "candidates": ...}` returned by `run`. -/
structure RunResult where
  final : String
  candidates : List String
deriving DecidableEq, Repr

/-- The exceptions `run` can raise: `ValueError("n_runs must be >= 1")`,
`RuntimeError("All candidate generations failed.")`, or a propagated
exception of the synthesis backend call. -/
inductive RunError where
  | valueError (msg : String)
  | runtimeError (msg : String)
  | synthesisError (e : String)
deriving DecidableEq, Repr

instance : DecidableEq (Except RunError RunResult) := fun a b =>
  match a, b with
  | .ok x, .ok y =>
    if h : x = y then isTrue (by rw [h])
    else isFalse fun hc => h (by injection hc)
  | .error x, .error y =>
    if h : x = y then isTrue (by rw [h])
    else isFalse fun hc => h (by injection hc)
  | .ok _, .error _ => isFalse fun hc => Except.noConfusion hc
  | .error _, .ok _ => isFalse fun hc => Except.noConfusion hc

/-- Outcome of one `run` invocation together with the requests issued during
the candidate-generation phase and during the synthesis phase. -/
structure RunOutcome where
  result : Except RunError RunResult
  candidateCalls : List Request
  synthCalls : List Request
deriving DecidableEq, Repr

/-- `LocalProMode.run(prompt, n_runs)`:
validate `n_runs`; submit units `0..n-1` (each runs `_one_completion` with
temperature `0.9`); fill `candidates` (initially `[""] * n_runs`) slot by
slot in thread-pool completion order `order`, downgrading a raised unit to
`""`; filter blank candidates; raise if none remain; otherwise issue the one
synthesis call at temperature `0.2` and propagate its failure. -/
def run (env : Env) (model prompt : String) (nRuns : Int) (order : List Nat) :
    RunOutcome :=
  if nRuns < 1 then
    ⟨.error (.valueError "n_runs must be >= 1"), [], []⟩
  else
    let n := nRuns.toNat
    let candidates := order.foldl
      (fun cands i => cands.set i (unitText (oneCompletion (env.unitResp i))))
      (List.replicate n "")
    let candidateCalls := ((List.range n).map fun i =>
      (oneCompletion (env.unitResp i)).calls.map fun _ =>
        candidateRequest model prompt).flatten
    let filtered := candidates.filter keepCandidate
    if filtered.isEmpty then
      ⟨.error (.runtimeError "All candidate generations failed."),
        candidateCalls, []⟩
    else
      match env.synthResp with
      | .error e =>
        ⟨.error (.synthesisError e), candidateCalls,
          [synthesisRequest model filtered]⟩
      | .ok final =>
        ⟨.ok ⟨final, candidates⟩, candidateCalls,
          [synthesisRequest model filtered]⟩

/-- The candidates array in submission-index order: slot `i` holds the
outcome of unit `i`. -/
def dispatchResult (env : Env) (n : Nat) : List String :=
  (List.range n).map fun i => unitText (oneCompletion (env.unitResp i))

/-- `max_workers = min(n_runs, 16)` (line 101). -/
def maxWorkers (nRuns : Nat) : Nat :=
  min nRuns 16

/-- `run` with the candidates array in canonical submission-index order: the
sequential fallback of the dispatch loop.  Theorems show `run` equals this for
every thread-pool completion order. -/
def runSequential (env : Env) (model prompt : String) (n : Nat) : RunOutcome :=
  let candidates := dispatchResult env n
  let candidateCalls := ((List.range n).map fun i =>
    (oneCompletion (env.unitResp i)).calls.map fun _ =>
      candidateRequest model prompt).flatten
  let filtered := candidates.filter keepCandidate
  if filtered.isEmpty then
    ⟨.error (.runtimeError "All candidate generations failed."),
      candidateCalls, []⟩
  else
    match env.synthResp with
    | .error e =>
      ⟨.error (.synthesisError e), candidateCalls,
        [synthesisRequest model filtered]⟩
    | .ok final =>
      ⟨.ok ⟨final, candidates⟩, candidateCalls,
        [synthesisRequest model filtered]⟩

/-- An execution schedule of `cf.ThreadPoolExecutor(max_workers=w)` running
the `n` submitted futures: each future is executed by one of the `w` pool
workers, occupying it for the half-open time span `[start i, finish i)`; a
worker executes at most one future at a time, so futures sharing a worker
occupy disjoint spans. -/
structure PoolSchedule (n w : Nat) where
  worker : Fin n → Fin w
  start : Fin n → ℚ
  finish : Fin n → ℚ
  disjoint : ∀ i j : Fin n, i ≠ j → worker i = worker j →
    finish i ≤ start j ∨ finish j ≤ start i

/-- The futures in flight (started, not yet finished) at time `t`. -/
def inFlight {n w : Nat} (s : PoolSchedule n w) (t : ℚ) : Finset (Fin n) :=
  Finset.univ.filter fun i => s.start i ≤ t ∧ t < s.finish i

/-- Follows the words of the spec: the synthesis body holds one block per
filtered candidate, block `j` (0-based) being the text of candidate `j` delimited by
`<cand j+1>` tags, so labels run `1..k` in filtered order. -/
def specCandidateBlocks (cs : List String) : List String :=
  (List.range cs.length).map fun j =>
    "<cand " ++ toString (j + 1) ++ ">\n" ++ cs.getD j "" ++ "\n</cand " ++
      toString (j + 1) ++ ">"

/-- A backend on which every candidate attempt raises. -/
def oracleFailAll : Nat → Except String String :=
  fun a => .error ("err" ++ toString a)

/-- A backend where unit 1 always raises and units 0 and 2 answer "A" and
"B"; synthesis answers "SYN". -/
def envMixed : Env :=
  ⟨fun i _ => if i = 1 then .error "u" else .ok (if i = 0 then "A" else "B"),
    .ok "SYN"⟩

/-- A backend on which every candidate attempt of every unit raises. -/
def envAllFail : Env :=
  ⟨fun _ _ => .error "boom", .ok "SYN"⟩

/-- A backend where every unit succeeds but returns only whitespace. -/
def envWhitespace : Env :=
  ⟨fun _ _ => .ok " ", .ok "SYN"⟩

/-- A backend where candidates succeed and the synthesis call raises. -/
def envSynthFail : Env :=
  ⟨fun _ _ => .ok "A", .error "synboom"⟩

/-- A one-worker schedule of a single future, open for the time span
`[0, 1)`. -/
def singleSchedule : PoolSchedule 1 (maxWorkers 1) where
  worker := fun _ => ⟨0, by decide⟩
  start := fun _ => 0
  finish := fun _ => 1
  disjoint := fun i j hij _ => absurd (Subsingleton.elim i j) hij

lemma oneCompletion_spec (oracle : Nat → Except String String) :
    oneCompletion oracle =
      match oracle 0 with
      | .ok t => ⟨[0], [], .returned t⟩
      | .error _ =>
        match oracle 1 with
        | .ok t => ⟨[0, 1], [1 / 2], .returned t⟩
        | .error _ =>
          match oracle 2 with
          | .ok t => ⟨[0, 1, 2], [1 / 2, 1], .returned t⟩
          | .error e => ⟨[0, 1, 2], [1 / 2, 1], .raised e⟩ := by
  have h3 : List.range 3 = [0, 1, 2] := rfl
  rcases h0 : oracle 0 with e0 | t0 <;>
    rcases h1 : oracle 1 with e1 | t1 <;>
      rcases h2 : oracle 2 with e2 | t2 <;>
        simp [oneCompletion, h3, oneCompletionLoop, h0, h1, h2]

lemma foldl_set_getElem? (f : Nat → String) (order : List Nat) :
    ∀ (acc : List String) (j : Nat),
      (order.foldl (fun c i => c.set i (f i)) acc)[j]? =
        if j ∈ order ∧ j < acc.length then some (f j) else acc[j]? := by
  induction order with
  | nil => intro acc j; simp
  | cons i rest ih =>
    intro acc j
    rw [List.foldl_cons, ih, List.length_set]
    rcases Decidable.em (j ∈ rest) with hr | hr
    · rcases Decidable.em (j < acc.length) with hl | hl
      · simp [hr, hl]
      · have hnone : acc[j]? = none := List.getElem?_eq_none (by omega)
        simp [hr, hl, List.getElem?_set, hnone]
        omega
    · rcases Decidable.em (i = j) with he | he
      · subst he
        rcases Decidable.em (i < acc.length) with hl | hl
        · simp [hr, hl, List.getElem?_set]
        · have hnone : acc[i]? = none := List.getElem?_eq_none (by omega)
          simp [hr, hl, List.getElem?_set, hnone]
      · have he' : ¬j = i := fun h => he h.symm
        simp [hr, he, he', List.getElem?_set]

lemma dispatchResult_length (env : Env) (n : Nat) :
    (dispatchResult env n).length = n := by
  simp [dispatchResult]

lemma dispatchResult_getElem? (env : Env) {n i : Nat} (h : i < n) :
    (dispatchResult env n)[i]? = some (unitText (oneCompletion (env.unitResp i))) := by
  simp [dispatchResult, List.getElem?_range h]

lemma dispatch_foldl_eq (env : Env) (n : Nat) (order : List Nat)
    (h : order.Perm (List.range n)) :
    order.foldl
        (fun cands i => cands.set i (unitText (oneCompletion (env.unitResp i))))
        (List.replicate n "") =
      dispatchResult env n := by
  apply List.ext_getElem?
  intro j
  rw [foldl_set_getElem?]
  have hmem : j ∈ order ↔ j < n := by rw [h.mem_iff, List.mem_range]
  rcases Decidable.em (j < n) with hj | hj
  · simp [hmem, hj, dispatchResult_getElem? env hj]
  · have h1 : (List.replicate n (α := String) "")[j]? = none :=
      List.getElem?_eq_none (by simpa using by omega)
    have h2 : (dispatchResult env n)[j]? = none :=
      List.getElem?_eq_none (by rw [dispatchResult_length]; omega)
    simp [hmem, hj, h1, h2]

lemma run_eq_sequential (env : Env) (model prompt : String) (nRuns : Int)
    (order : List Nat) (hn : 1 ≤ nRuns)
    (horder : order.Perm (List.range nRuns.toNat)) :
    run env model prompt nRuns order = runSequential env model prompt nRuns.toNat := by
  simp only [run, runSequential]
  rw [if_neg (by omega), dispatch_foldl_eq env _ order horder]

lemma keepCandidate_false_iff (c : String) :
    keepCandidate c = false ↔ c = "" ∨ pyStrip c = "" := by
  simp only [keepCandidate, Bool.and_eq_false_iff, Bool.not_eq_false',
    String.isEmpty_iff]

lemma keepCandidate_empty : keepCandidate "" = false := by
  decide

lemma unitText_raised {t : CompTrace} {e : String} (h : t.result = .raised e) :
    unitText t = "" := by
  unfold unitText
  rw [h]

lemma unitText_returned {t : CompTrace} {s : String} (h : t.result = .returned s) :
    unitText t = s := by
  unfold unitText
  rw [h]

lemma runSequential_result_ok (env : Env) (model prompt : String) (n : Nat)
    (res : RunResult)
    (hres : (runSequential env model prompt n).result = .ok res) :
    res.candidates = dispatchResult env n ∧ env.synthResp = .ok res.final := by
  unfold runSequential at hres
  by_cases hf : ((dispatchResult env n).filter keepCandidate).isEmpty
  · simp [hf] at hres
  · rcases hs : env.synthResp with e | t
    · simp [hf, hs] at hres
    · simp [hf, hs] at hres
      subst hres
      exact ⟨rfl, by simp [hs]⟩

lemma runSequential_allfailed_iff (env : Env) (model prompt : String) (n : Nat) :
    (runSequential env model prompt n).result =
        .error (.runtimeError "All candidate generations failed.") ↔
      ∀ c ∈ dispatchResult env n, keepCandidate c = false := by
  by_cases hf : ((dispatchResult env n).filter keepCandidate).isEmpty
  · have hall : ∀ c ∈ dispatchResult env n, keepCandidate c = false := by
      intro c hc
      have h1 := List.filter_eq_nil_iff.mp (List.isEmpty_iff.mp hf) c hc
      simpa using h1
    have hres : (runSequential env model prompt n).result =
        .error (.runtimeError "All candidate generations failed.") := by
      simp [runSequential, hf]
    exact ⟨fun _ => hall, fun _ => hres⟩
  · have hne : ¬∀ c ∈ dispatchResult env n, keepCandidate c = false := by
      intro hall
      apply hf
      rw [List.isEmpty_iff, List.filter_eq_nil_iff]
      intro a ha
      simp [hall a ha]
    rcases hs : env.synthResp with e | t <;> simp [runSequential, hf, hs, hne]

lemma runSequential_error_classify (env : Env) (model prompt : String) (n : Nat)
    (e : RunError)
    (he : (runSequential env model prompt n).result = .error e) :
    e = .runtimeError "All candidate generations failed." ∨
      ∃ s, env.synthResp = .error s ∧ e = .synthesisError s := by
  unfold runSequential at he
  by_cases hf : ((dispatchResult env n).filter keepCandidate).isEmpty
  · left
    simp [hf] at he
    exact he.symm
  · rcases hs : env.synthResp with s | t
    · right
      refine ⟨s, rfl, ?_⟩
      simp [hf, hs] at he
      exact he.symm
    · simp [hf, hs] at he

lemma runSequential_synthCalls (env : Env) (model prompt : String) (n : Nat) :
    (runSequential env model prompt n).synthCalls =
      if ((dispatchResult env n).filter keepCandidate).isEmpty then []
      else [synthesisRequest model ((dispatchResult env n).filter keepCandidate)] := by
  by_cases hf : ((dispatchResult env n).filter keepCandidate).isEmpty <;>
    rcases hs : env.synthResp with e | t <;>
      simp [runSequential, hf, hs]

lemma runSequential_candidateCalls (env : Env) (model prompt : String) (n : Nat) :
    (runSequential env model prompt n).candidateCalls =
      ((List.range n).map fun i =>
        (oneCompletion (env.unitResp i)).calls.map fun _ =>
          candidateRequest model prompt).flatten := by
  by_cases hf : ((dispatchResult env n).filter keepCandidate).isEmpty <;>
    rcases hs : env.synthResp with e | t <;>
      simp [runSequential, hf, hs]

lemma runSequential_synthFail (env : Env) (model prompt : String) (n : Nat)
    (s : String) (hs : env.synthResp = .error s)
    (hne : ¬((dispatchResult env n).filter keepCandidate).isEmpty) :
    (runSequential env model prompt n).result = .error (.synthesisError s) := by
  simp [runSequential, hne, hs]

lemma oneCompletion_calls_le (oracle : Nat → Except String String) :
    (oneCompletion oracle).calls.length ≤ 3 := by
  rw [oneCompletion_spec]
  rcases h0 : oracle 0 with e0 | t0 <;>
    rcases h1 : oracle 1 with e1 | t1 <;>
      rcases h2 : oracle 2 with e2 | t2 <;>
        simp

lemma oneCompletion_sleeps_eq (oracle : Nat → Except String String) :
    (oneCompletion oracle).sleeps =
      List.take ((oneCompletion oracle).calls.length - 1) [(1 : ℚ) / 2, 1] := by
  rw [oneCompletion_spec]
  rcases h0 : oracle 0 with e0 | t0 <;>
    rcases h1 : oracle 1 with e1 | t1 <;>
      rcases h2 : oracle 2 with e2 | t2 <;>
        simp

lemma oneCompletion_not_fellThrough (oracle : Nat → Except String String) :
    (oneCompletion oracle).result ≠ .fellThrough := by
  rw [oneCompletion_spec]
  rcases h0 : oracle 0 with e0 | t0 <;>
    rcases h1 : oracle 1 with e1 | t1 <;>
      rcases h2 : oracle 2 with e2 | t2 <;>
        simp

lemma oneCompletion_returned (oracle : Nat → Except String String) (s : String)
    (h : (oneCompletion oracle).result = .returned s) :
    ∃ a ∈ (oneCompletion oracle).calls, oracle a = .ok s := by
  rw [oneCompletion_spec]
  rw [oneCompletion_spec] at h
  rcases h0 : oracle 0 with e0 | t0 <;>
    rcases h1 : oracle 1 with e1 | t1 <;>
      rcases h2 : oracle 2 with e2 | t2 <;>
        simp [h0, h1, h2] at h ⊢ <;>
          simp [h0, h1, h2, ← h]

lemma oneCompletion_raised (oracle : Nat → Except String String) (e : String)
    (h : (oneCompletion oracle).result = .raised e) :
    (oneCompletion oracle).calls = [0, 1, 2] ∧ oracle 2 = .error e := by
  rw [oneCompletion_spec]
  rw [oneCompletion_spec] at h
  rcases h0 : oracle 0 with e0 | t0 <;>
    rcases h1 : oracle 1 with e1 | t1 <;>
      rcases h2 : oracle 2 with e2 | t2 <;>
        simp [h0, h1, h2] at h ⊢ <;>
          simp [h0, h1, h2, ← h]

lemma enum_map_candTag (cs : List String) :
    cs.enum.map (fun p => candTag p.1 p.2) = specCandidateBlocks cs := by
  apply List.ext_getElem
  · simp [specCandidateBlocks]
  · intro j h1 h2
    have hj : j < cs.length := by simpa [specCandidateBlocks] using h2
    simp [specCandidateBlocks, List.getElem_enum, candTag,
      List.getElem?_eq_getElem hj]

lemma inFlight_card_le {n w : Nat} (s : PoolSchedule n w) (t : ℚ) :
    (inFlight s t).card ≤ w := by
  have hinj : Set.InjOn s.worker (inFlight s t) := by
    intro i hi j hj hw
    by_contra hij
    simp only [inFlight, Finset.coe_filter, Set.mem_setOf_eq] at hi hj
    rcases s.disjoint i j hij hw with h | h
    · linarith [hi.2.2, hj.2.1]
    · linarith [hj.2.2, hi.2.1]
  calc (inFlight s t).card = ((inFlight s t).image s.worker).card :=
        (Finset.card_image_of_injOn hinj).symm
    _ ≤ Fintype.card (Fin w) := Finset.card_le_univ _
    _ = w := Fintype.card_fin w

/-- C1: for every `n ≥ 1`, a completed `run` produces exactly `n` candidate
entries; entry `i` holds the output of dispatch unit `i` regardless of the
thread-pool completion order, and each entry is either the non-empty text of
a successful completion or the empty string recorded for a failure. -/
theorem run_candidates_indexed (env : Env) (model prompt : String)
    (nRuns : Int) (order : List Nat) (hn : 1 ≤ nRuns)
    (horder : order.Perm (List.range nRuns.toNat)) (res : RunResult)
    (hres : (run env model prompt nRuns order).result = .ok res) :
    res.candidates.length = nRuns.toNat ∧
    ∀ i < nRuns.toNat,
      res.candidates[i]? = some (unitText (oneCompletion (env.unitResp i))) ∧
      ((∃ s, (oneCompletion (env.unitResp i)).result = .returned s ∧ s ≠ "" ∧
          res.candidates[i]? = some s) ∨
        res.candidates[i]? = some "") := by
  rw [run_eq_sequential env model prompt nRuns order hn horder] at hres
  obtain ⟨hc, -⟩ := runSequential_result_ok env model prompt nRuns.toNat res hres
  refine ⟨by rw [hc, dispatchResult_length], ?_⟩
  intro i hi
  rw [hc, dispatchResult_getElem? env hi]
  refine ⟨rfl, ?_⟩
  cases hr : (oneCompletion (env.unitResp i)).result with
  | returned s =>
    rcases Decidable.em (s = "") with he | he
    · right
      rw [unitText_returned hr, he]
    · left
      exact ⟨s, rfl, he, by rw [unitText_returned hr]⟩
  | raised e =>
    right
    rw [unitText_raised hr]
  | fellThrough => exact absurd hr (oneCompletion_not_fellThrough _)

theorem run_candidates_indexed_witness :
    (RunResult.mk "SYN" ["A", "", "B"]).candidates.length = (3 : Int).toNat ∧
    ∀ i < (3 : Int).toNat,
      (RunResult.mk "SYN" ["A", "", "B"]).candidates[i]? =
        some (unitText (oneCompletion (envMixed.unitResp i))) ∧
      ((∃ s, (oneCompletion (envMixed.unitResp i)).result = .returned s ∧ s ≠ "" ∧
          (RunResult.mk "SYN" ["A", "", "B"]).candidates[i]? = some s) ∨
        (RunResult.mk "SYN" ["A", "", "B"]).candidates[i]? = some "") :=
  run_candidates_indexed envMixed "m" "p" 3 [2, 0, 1] (by decide) (by decide)
    (RunResult.mk "SYN" ["A", "", "B"]) (by decide)

/-- C2: if every one of the `n` dispatch units fails (its `_one_completion`
raises), `run` fails with `RuntimeError("All candidate generations failed.")`
and no synthesis-stage backend call is made. -/
theorem run_all_units_failed (env : Env) (model prompt : String)
    (nRuns : Int) (order : List Nat) (hn : 1 ≤ nRuns)
    (horder : order.Perm (List.range nRuns.toNat))
    (hfail : ∀ i < nRuns.toNat,
      ∃ e, (oneCompletion (env.unitResp i)).result = .raised e) :
    (run env model prompt nRuns order).result =
      .error (.runtimeError "All candidate generations failed.") ∧
    (run env model prompt nRuns order).synthCalls = [] := by
  rw [run_eq_sequential env model prompt nRuns order hn horder]
  have hall : ∀ c ∈ dispatchResult env nRuns.toNat, keepCandidate c = false := by
    intro c hc
    simp only [dispatchResult, List.mem_map, List.mem_range] at hc
    obtain ⟨i, hi, rfl⟩ := hc
    obtain ⟨e, he⟩ := hfail i hi
    rw [unitText_raised he]
    exact keepCandidate_empty
  constructor
  · exact (runSequential_allfailed_iff env model prompt nRuns.toNat).mpr hall
  · rw [runSequential_synthCalls, if_pos]
    rw [List.isEmpty_iff, List.filter_eq_nil_iff]
    intro a ha
    simp [hall a ha]

theorem run_all_units_failed_witness :
    (run envAllFail "m" "p" 2 [1, 0]).result =
      .error (.runtimeError "All candidate generations failed.") ∧
    (run envAllFail "m" "p" 2 [1, 0]).synthCalls = [] :=
  run_all_units_failed envAllFail "m" "p" 2 [1, 0] (by decide) (by decide)
    (fun _ _ => ⟨"boom", rfl⟩)

/-- C3: each dispatch unit issues at most 3 backend calls, the waits between
consecutive attempts are exactly `0.5` then `1.0` seconds (never more than
two waits); a unit whose third attempt fails is recorded as `""` in its slot
of a completed run, and `run` never fails with the error of that unit: its only
failures are the all-candidates-failed error or the propagated synthesis
error. -/
theorem unit_retry_policy (env : Env) (model prompt : String)
    (nRuns : Int) (order : List Nat) (hn : 1 ≤ nRuns)
    (horder : order.Perm (List.range nRuns.toNat)) (i : Nat)
    (hi : i < nRuns.toNat) :
    (oneCompletion (env.unitResp i)).calls.length ≤ 3 ∧
    (oneCompletion (env.unitResp i)).sleeps =
      List.take ((oneCompletion (env.unitResp i)).calls.length - 1)
        [(1 : ℚ) / 2, 1] ∧
    ∀ e, (oneCompletion (env.unitResp i)).result = .raised e →
      (∀ res, (run env model prompt nRuns order).result = .ok res →
        res.candidates[i]? = some "") ∧
      ∀ e', (run env model prompt nRuns order).result = .error e' →
        e' = .runtimeError "All candidate generations failed." ∨
          ∃ s, env.synthResp = .error s ∧ e' = .synthesisError s := by
  refine ⟨oneCompletion_calls_le _, oneCompletion_sleeps_eq _, ?_⟩
  intro e he
  rw [run_eq_sequential env model prompt nRuns order hn horder]
  constructor
  · intro res hres
    obtain ⟨hc, -⟩ := runSequential_result_ok _ _ _ _ _ hres
    rw [hc, dispatchResult_getElem? env hi, unitText_raised he]
  · intro e' he'
    exact runSequential_error_classify _ _ _ _ _ he'

theorem unit_retry_policy_witness :
    (oneCompletion (envAllFail.unitResp 0)).calls.length ≤ 3 ∧
    (oneCompletion (envAllFail.unitResp 0)).sleeps =
      List.take ((oneCompletion (envAllFail.unitResp 0)).calls.length - 1)
        [(1 : ℚ) / 2, 1] ∧
    ∀ e, (oneCompletion (envAllFail.unitResp 0)).result = .raised e →
      (∀ res, (run envAllFail "m" "p" 1 [0]).result = .ok res →
        res.candidates[0]? = some "") ∧
      ∀ e', (run envAllFail "m" "p" 1 [0]).result = .error e' →
        e' = .runtimeError "All candidate generations failed." ∨
          ∃ s, envAllFail.synthResp = .error s ∧ e' = .synthesisError s :=
  unit_retry_policy envAllFail "m" "p" 1 [0] (by decide) (by decide) 0 (by decide)

/-- C4: for every non-empty filtered candidate list `cs` of length `k`, the
synthesis request body holds exactly one block per filtered candidate,
delimited by tags labeled `1..k` in the order the candidates are given. -/
theorem synthesis_request_blocks (model : String) (cs : List String)
    (h : cs ≠ []) :
    (synthesisRequest model cs).messages =
      [⟨"system", synthSystemPrompt⟩,
        ⟨"user",
          "You are given " ++ toString cs.length ++
            " candidate answers delimited by <cand i> tags.\n\n" ++
            String.intercalate "\n\n" (specCandidateBlocks cs) ++
            "\n\nReturn the single best final answer."⟩] ∧
    (specCandidateBlocks cs).length = cs.length := by
  constructor
  · simp only [synthesisRequest, buildSynthesisMessages, enum_map_candTag]
  · simp [specCandidateBlocks]

theorem synthesis_request_blocks_witness :
    (synthesisRequest "m" ["A"]).messages =
      [⟨"system", synthSystemPrompt⟩,
        ⟨"user",
          "You are given " ++ toString (["A"] : List String).length ++
            " candidate answers delimited by <cand i> tags.\n\n" ++
            String.intercalate "\n\n" (specCandidateBlocks ["A"]) ++
            "\n\nReturn the single best final answer."⟩] ∧
    (specCandidateBlocks ["A"]).length = (["A"] : List String).length :=
  synthesis_request_blocks "m" ["A"] (by decide)

/-- C5: when at least one candidate survives the filter, the synthesis stage
issues exactly one backend request, that request carries temperature `0.2`,
every candidate-generation request carries temperature `0.9`, and a synthesis
failure propagates to the caller of `run`. -/
theorem synthesis_single_call (env : Env) (model prompt : String)
    (nRuns : Int) (order : List Nat) (hn : 1 ≤ nRuns)
    (horder : order.Perm (List.range nRuns.toNat))
    (hsome : ∃ c ∈ dispatchResult env nRuns.toNat, keepCandidate c = true) :
    (run env model prompt nRuns order).synthCalls.length = 1 ∧
    (∀ r ∈ (run env model prompt nRuns order).synthCalls,
      r.temperature = 1 / 5) ∧
    (∀ r ∈ (run env model prompt nRuns order).candidateCalls,
      r.temperature = 9 / 10) ∧
    ∀ s, env.synthResp = .error s →
      (run env model prompt nRuns order).result = .error (.synthesisError s) := by
  rw [run_eq_sequential env model prompt nRuns order hn horder]
  have hne : ¬((dispatchResult env nRuns.toNat).filter keepCandidate).isEmpty = true := by
    obtain ⟨c, hc, hk⟩ := hsome
    rw [List.isEmpty_iff]
    intro hnil
    have h1 := List.filter_eq_nil_iff.mp hnil c hc
    simp [hk] at h1
  refine ⟨?_, ?_, ?_, ?_⟩
  · rw [runSequential_synthCalls, if_neg hne]
    rfl
  · rw [runSequential_synthCalls, if_neg hne]
    intro r hr
    rw [List.mem_singleton] at hr
    rw [hr]
    rfl
  · rw [runSequential_candidateCalls]
    intro r hr
    rw [List.mem_flatten] at hr
    obtain ⟨l, hl, hrl⟩ := hr
    rw [List.mem_map] at hl
    obtain ⟨i, -, rfl⟩ := hl
    rw [List.mem_map] at hrl
    obtain ⟨a, -, rfl⟩ := hrl
    rfl
  · intro s hs
    exact runSequential_synthFail env model prompt nRuns.toNat s hs
      (by simpa using hne)

theorem synthesis_single_call_witness :
    (run envSynthFail "m" "p" 1 [0]).synthCalls.length = 1 ∧
    (∀ r ∈ (run envSynthFail "m" "p" 1 [0]).synthCalls,
      r.temperature = 1 / 5) ∧
    (∀ r ∈ (run envSynthFail "m" "p" 1 [0]).candidateCalls,
      r.temperature = 9 / 10) ∧
    ∀ s, envSynthFail.synthResp = .error s →
      (run envSynthFail "m" "p" 1 [0]).result = .error (.synthesisError s) :=
  synthesis_single_call envSynthFail "m" "p" 1 [0] (by decide) (by decide)
    ⟨"A", by decide, by decide⟩

/-- C6: for every `n < 1`, `run` fails immediately with
`ValueError("n_runs must be >= 1")` and no backend request of either stage is
issued. -/
theorem invalid_n_fails_fast (env : Env) (model prompt : String)
    (order : List Nat) (nRuns : Int) (hn : nRuns < 1) :
    run env model prompt nRuns order =
      ⟨.error (.valueError "n_runs must be >= 1"), [], []⟩ := by
  simp only [run]
  rw [if_pos hn]

theorem invalid_n_fails_fast_witness :
    run envMixed "m" "p" 0 [] =
      ⟨.error (.valueError "n_runs must be >= 1"), [], []⟩ :=
  invalid_n_fails_fast envMixed "m" "p" [] 0 (by decide)

/-- C7: for every `n ≥ 1` and every schedule of the `n` dispatch futures on
the pool of `max_workers = min(n, 16)` workers, at most `min(n, 16)` futures
are simultaneously in flight. -/
theorem concurrency_bound (nRuns : Int) (hn : 1 ≤ nRuns)
    (s : PoolSchedule nRuns.toNat (maxWorkers nRuns.toNat)) (t : ℚ) :
    (inFlight s t).card ≤ min nRuns.toNat 16 := by
  simpa [maxWorkers] using inFlight_card_le s t

theorem concurrency_bound_witness :
    (inFlight singleSchedule 0).card ≤ min (1 : Int).toNat 16 :=
  concurrency_bound 1 (by decide) singleSchedule 0

/-- C8: `run` raises `RuntimeError("All candidate generations failed.")`
exactly when every candidate slot holds an empty or whitespace-only string;
a unit that succeeds with whitespace-only text is excluded from the synthesis
input by the filter yet its text appears verbatim in the candidates of a
completed run; in particular a run in which no unit raised can still fail with
this error. -/
theorem allfailed_iff_all_blank (env : Env) (model prompt : String)
    (nRuns : Int) (order : List Nat) (hn : 1 ≤ nRuns)
    (horder : order.Perm (List.range nRuns.toNat)) :
    ((run env model prompt nRuns order).result =
        .error (.runtimeError "All candidate generations failed.") ↔
      ∀ c ∈ dispatchResult env nRuns.toNat, c = "" ∨ pyStrip c = "") ∧
    ∀ i < nRuns.toNat,
      ∀ s, (oneCompletion (env.unitResp i)).result = .returned s →
        pyStrip s = "" →
        s ∉ (dispatchResult env nRuns.toNat).filter keepCandidate ∧
        ∀ res, (run env model prompt nRuns order).result = .ok res →
          res.candidates[i]? = some s := by
  rw [run_eq_sequential env model prompt nRuns order hn horder]
  constructor
  · rw [runSequential_allfailed_iff]
    constructor
    · intro h c hc
      exact (keepCandidate_false_iff c).mp (h c hc)
    · intro h c hc
      exact (keepCandidate_false_iff c).mpr (h c hc)
  · intro i hi s hs hstrip
    constructor
    · intro hmem
      have h1 := (List.mem_filter.mp hmem).2
      rw [(keepCandidate_false_iff s).mpr (Or.inr hstrip)] at h1
      exact Bool.noConfusion h1
    · intro res hres
      obtain ⟨hc, -⟩ := runSequential_result_ok _ _ _ _ _ hres
      rw [hc, dispatchResult_getElem? env hi, unitText_returned hs]

theorem allfailed_iff_all_blank_witness :
    (run envWhitespace "m" "p" 2 [0, 1]).result =
      .error (.runtimeError "All candidate generations failed.") :=
  (allfailed_iff_all_blank envWhitespace "m" "p" 2 [0, 1] (by decide)
      (by decide)).1.mpr (by decide)

/-- C9: with a deterministic completion service (a fixed outcome for each
call), two invocations of `run` with the same prompt and the same `n`
produce identical outcomes — candidates array, final text and request
traces — regardless of the order in which the parallel units complete. -/
theorem run_deterministic (env : Env) (model prompt : String) (nRuns : Int)
    (o₁ o₂ : List Nat) (hn : 1 ≤ nRuns)
    (h₁ : o₁.Perm (List.range nRuns.toNat))
    (h₂ : o₂.Perm (List.range nRuns.toNat)) :
    run env model prompt nRuns o₁ = run env model prompt nRuns o₂ := by
  rw [run_eq_sequential env model prompt nRuns o₁ hn h₁,
    run_eq_sequential env model prompt nRuns o₂ hn h₂]

theorem run_deterministic_witness :
    run envMixed "m" "p" 3 [2, 0, 1] = run envMixed "m" "p" 3 [0, 1, 2] :=
  run_deterministic envMixed "m" "p" 3 [2, 0, 1] [0, 1, 2] (by decide)
    (by decide) (by decide)

/-- C10: every execution of `_one_completion` either returns text obtained
from the backend on one of its at most 3 attempts or re-raises the error of
the third attempt; the trailing `return ""` after the loop is unreachable. -/
theorem one_completion_exhaustive (oracle : Nat → Except String String) :
    (oneCompletion oracle).result ≠ .fellThrough ∧
    (oneCompletion oracle).calls.length ≤ 3 ∧
    (∀ s, (oneCompletion oracle).result = .returned s →
      ∃ a ∈ (oneCompletion oracle).calls, oracle a = .ok s) ∧
    ∀ e, (oneCompletion oracle).result = .raised e →
      (oneCompletion oracle).calls = [0, 1, 2] ∧ oracle 2 = .error e :=
  ⟨oneCompletion_not_fellThrough oracle, oneCompletion_calls_le oracle,
    fun s h => oneCompletion_returned oracle s h,
    fun e h => oneCompletion_raised oracle e h⟩

theorem one_completion_exhaustive_witness :
    (oneCompletion oracleFailAll).calls = [0, 1, 2] ∧
    oracleFailAll 2 = .error "err2" :=
  (one_completion_exhaustive oracleFailAll).2.2.2 "err2" (by decide)

end LocalProMode
